import Mathlib

/-!
Shallow embedding of the picture-annotation dispatcher and the OCR
region/table enhancers of the Doc-Parser repository
(`docling_serve/picture_annotation/annotation_service.py`,
`docling_serve/picture_annotation/models.py`,
`docling_serve/document_enhancement/ocr_enhancer.py`,
`docling_serve/datamodel/convert.py`).

Python floats are modelled as `ℚ`, Python ints as `ℤ` or `ℕ`,
`Optional[T]` as `Option T`, and raising an exception as returning
`Except.error` with the exception message.  External collaborators
(the OpenAI chat-completion client, the Surya predictors, PIL image
encoding) are modelled as function parameters returning `Except`,
so that both their success and failure behaviours are quantified over.
-/

/-- An in-memory PIL image.  Its pixel content never matters to the code
under verification (it is only handed to external collaborators), so it is
modelled as an abstract token. -/
structure PILImage where
  tag : ℕ
deriving DecidableEq, Repr

/-- `models.py`: result from picture annotation (pydantic model).
`confidence` and `error` default to `None`. -/
structure AnnotationResult where
  text : String
  provenance : String
  confidence : Option ℚ := none
  error : Option String := none
deriving DecidableEq, Repr

/-- `convert.py`: `PictureAnnotationModelType(str, Enum)` with members
LOCAL = "local", RUNPOD = "runpod", OPENAI = "openai". -/
inductive PictureAnnotationModelType where
  | LOCAL
  | RUNPOD
  | OPENAI
deriving DecidableEq, Repr

/-- The `.value` of the str-enum member. -/
def PictureAnnotationModelType.value : PictureAnnotationModelType → String
  | .LOCAL => "local"
  | .RUNPOD => "runpod"
  | .OPENAI => "openai"

/-- `convert.py`: `RunPodAnnotationConfig` with its pydantic field defaults. -/
structure RunPodAnnotationConfig where
  api_key : String
  worker_id : String
  model : String := "Qwen/Qwen2.5-VL-3B-Instruct"
  prompt : String := "اوصفلي الصورة دي وصف رياضي دقيق جداً جداً وخليك دقيق لاكتر درجه ممكنه"
  temperature : ℚ := 6/10
deriving DecidableEq, Repr

/-- `convert.py`: `OpenAIAnnotationConfig` with its pydantic field defaults. -/
structure OpenAIAnnotationConfig where
  api_key : String
  model : String := "gpt-4-vision-preview"
  prompt : String := "Describe this image in detail with mathematical precision."
  temperature : ℚ := 6/10
deriving DecidableEq, Repr

/-- `convert.py`: `PictureAnnotationOptions` (field defaults: LOCAL, None, None). -/
structure PictureAnnotationOptions where
  model_type : PictureAnnotationModelType := .LOCAL
  runpod_config : Option RunPodAnnotationConfig := none
  openai_config : Option OpenAIAnnotationConfig := none
deriving DecidableEq, Repr

/-- `convert.py` lines 207-213: the pydantic `model_validator(mode="after")`
`validate_model_config`, run when a `PictureAnnotationOptions` object is
constructed through pydantic.  Raising `ValueError` is `Except.error`. -/
def validate_model_config (o : PictureAnnotationOptions) :
    Except String PictureAnnotationOptions :=
  if o.model_type = .RUNPOD ∧ o.runpod_config = none then
    .error "runpod_config is required when model_type is 'runpod'"
  else if o.model_type = .OPENAI ∧ o.openai_config = none then
    .error "openai_config is required when model_type is 'openai'"
  else
    .ok o

/-- The process environment as consumed by `_validate_configuration`:
the result of `os.getenv` for each of the four variables it reads
(`none` models an unset variable). -/
structure Env where
  runpod_api_key : Option String := none
  runpod_worker : Option String := none
  runpod_model : Option String := none
  openai_api_key : Option String := none
deriving DecidableEq, Repr

/-- Python truthiness of an `Optional[str]`: `not x` is true exactly when
the value is `None` or the empty string. -/
def pyStrFalsy : Option String → Bool
  | none => true
  | some s => s.isEmpty

/-- Exact message of the `ValueError` raised at `annotation_service.py` line 40. -/
def runpodMissingMsg : String :=
  "RunPod configuration missing. Either provide runpod_config or set RUNPOD_API_KEY and RUNPOD_WORKER environment variables."

/-- Exact message of the `ValueError` raised at `annotation_service.py` line 58. -/
def openaiMissingMsg : String :=
  "OpenAI configuration missing. Either provide openai_config or set OPENAI_API_KEY environment variable."

/-- `annotation_service.py` lines 30-64: `PictureAnnotationService._validate_configuration`.
It mutates `self.options` (filling the missing config from the environment),

so it is modelled as returning the updated options; raising `ValueError` is
`Except.error`.  Its type takes only the options and the environment —
no backend, encoder or network handle — so no backend call can occur
during validation. -/
def validate_configuration (env : Env) (o : PictureAnnotationOptions) :
    Except String PictureAnnotationOptions :=
  match o.model_type with
  | .RUNPOD =>
    if o.runpod_config = none then
      let api_key := env.runpod_api_key
      let worker_id := env.runpod_worker
      let model := env.runpod_model.getD "Qwen/Qwen2.5-VL-3B-Instruct"
      if pyStrFalsy api_key ∨ pyStrFalsy worker_id then
        .error runpodMissingMsg
      else
        let cfg : RunPodAnnotationConfig :=
          { api_key := api_key.getD "", worker_id := worker_id.getD "",
            model := model }
        .ok { o with runpod_config := some cfg }
    else .ok o
  | .OPENAI =>
    if o.openai_config = none then
      let api_key := env.openai_api_key
      if pyStrFalsy api_key then
        .error openaiMissingMsg
      else
        .ok { o with openai_config := some { api_key := api_key.getD "" } }
    else .ok o
  | .LOCAL => .ok o

/-- `annotation_service.py` lines 26-28: `PictureAnnotationService.__init__`.
`options or PictureAnnotationOptions()` — a pydantic model instance is always
truthy, so this is `Option.getD` with the default-constructed options.  The
constructed service is its (possibly env-resolved) options. -/
def mkPictureAnnotationService (env : Env) (options : Option PictureAnnotationOptions) :
    Except String PictureAnnotationOptions :=
  validate_configuration env (options.getD {})

/-- A single-turn chat-completion request as the two API handlers build it:
base URL (`none` = the client library's standard default endpoint), API key,
model, the `data:` image URL, the image-detail hint, the text prompt and the
temperature. -/
structure ChatRequest where
  base_url : Option String
  api_key : String
  model : String
  image_url : String
  detail : String
  prompt : String
  temperature : ℚ
deriving DecidableEq, Repr

/-- `response.choices[i].message.content` (`content` may be `None`). -/
structure ChatMessage where
  content : Option String
deriving DecidableEq, Repr

structure ChatChoice where
  message : ChatMessage
deriving DecidableEq, Repr

structure ChatResponse where
  choices : List ChatChoice
deriving DecidableEq, Repr

/-- The chat-completion backend (`client.chat.completions.create`), an
external collaborator: it may return a response or raise. -/
def ChatBackend : Type := ChatRequest → Except String ChatResponse

/-- PNG-encoding plus base64 of a PIL image (`image.save` + `b64encode`),
an external collaborator: it may produce the base64 string or raise. -/
def ImageEncoder : Type := PILImage → Except String String

/-- The request `_annotate_with_runpod` sends: RunPod base URL derived from
the worker id, image detail "low" (`annotation_service.py` lines 107-131). -/
def mkRunpodRequest (config : RunPodAnnotationConfig) (img_str : String) : ChatRequest :=
  { base_url := some ("https://api.runpod.ai/v2/" ++ config.worker_id ++ "/openai/v1")
    api_key := config.api_key
    model := config.model
    image_url := "data:image/png;base64," ++ img_str
    detail := "low"
    prompt := config.prompt
    temperature := config.temperature }

/-- The request `_annotate_with_openai` sends: the client's default endpoint,
image detail "high" (`annotation_service.py` lines 150-173). -/
def mkOpenaiRequest (config : OpenAIAnnotationConfig) (img_str : String) : ChatRequest :=
  { base_url := none
    api_key := config.api_key
    model := config.model
    image_url := "data:image/png;base64," ++ img_str
    detail := "high"
    prompt := config.prompt
    temperature := config.temperature }

/-- `annotation_service.py` lines 86-93: `_annotate_with_local_model`. -/
def annotate_with_local_model (_image : PILImage) : Except String AnnotationResult :=
  .ok { text := "Local model annotation placeholder", provenance := "local_model" }

/-- `annotation_service.py` lines 95-136: `_annotate_with_runpod`.
`response.choices[0]` on an empty list raises `IndexError`. -/
def annotate_with_runpod (enc : ImageEncoder) (backend : ChatBackend)
    (o : PictureAnnotationOptions) (image : PILImage) :
    Except String AnnotationResult :=
  match o.runpod_config with
  | none => .error "RunPod configuration not available"
  | some config =>
    match enc image with
    | .error e => .error e
    | .ok img_str =>
      match backend (mkRunpodRequest config img_str) with
      | .error e => .error e
      | .ok response =>
        match response.choices with
        | [] => .error "list index out of range"
        | choice :: _ =>
          .ok { text := choice.message.content.getD ""
                provenance := "runpod:" ++ config.model }

/-- `annotation_service.py` lines 138-178: `_annotate_with_openai`. -/
def annotate_with_openai (enc : ImageEncoder) (backend : ChatBackend)
    (o : PictureAnnotationOptions) (image : PILImage) :
    Except String AnnotationResult :=
  match o.openai_config with
  | none => .error "OpenAI configuration not available"
  | some config =>
    match enc image with
    | .error e => .error e
    | .ok img_str =>
      match backend (mkOpenaiRequest config img_str) with
      | .error e => .error e
      | .ok response =>
        match response.choices with
        | [] => .error "list index out of range"
        | choice :: _ =>
          .ok { text := choice.message.content.getD ""
                provenance := "openai:" ++ config.model }

/-- The dispatch inside the `try` block of `annotate_image` (lines 68-76).
The Python enum has exactly the three members, so the `else` branch raising
"Unsupported model type" is unreachable and has no counterpart here. -/
def annotate_dispatch (enc : ImageEncoder) (backend : ChatBackend)
    (o : PictureAnnotationOptions) (image : PILImage) :
    Except String AnnotationResult :=
  match o.model_type with
  | .LOCAL => annotate_with_local_model image
  | .RUNPOD => annotate_with_runpod enc backend o image
  | .OPENAI => annotate_with_openai enc backend o image

/-- `annotation_service.py` lines 66-84: `PictureAnnotationService.annotate_image`.
The `except Exception` arm converts any dispatch failure into an
`AnnotationResult` with empty text, `provenance = self.options.model_type.value`
and `error` set.  The function is total: it never raises. -/
def annotate_image (enc : ImageEncoder) (backend : ChatBackend)
    (o : PictureAnnotationOptions) (image : PILImage) : AnnotationResult :=
  match annotate_dispatch enc backend o image with
  | .ok r => r
  | .error e => { text := "", provenance := o.model_type.value, error := some e }

/-- A recognized text line from the Surya recognition backend:
`line.text` and `line.confidence`. -/
structure RecognizedLine where
  text : String
  confidence : ℚ
deriving DecidableEq, Repr

/-- One per-image prediction object of the recognition backend,
exposing `text_lines`. -/
structure OCRPrediction where
  text_lines : List RecognizedLine
deriving DecidableEq, Repr

/-- The crop/canvas geometry computed by `extract_text_from_region`
(`ocr_enhancer.py` lines 42-61), kept as the intermediate values the
source names. -/
structure CanvasSpec where
  left : ℤ
  top : ℤ
  right : ℤ
  bottom : ℤ
  bg_w : ℤ
  bg_h : ℤ
  paste_x : ℤ
  paste_y : ℤ
deriving DecidableEq, Repr

/-- `ocr_enhancer.py` lines 42-61: padding by `thr = 2`, clamping to the
image bounds, the 3x white canvas and the centred paste position.
Python `//` is floor division, i.e. `Int.fdiv`. -/
def cropGeometry (width height : ℤ) (bbox : ℤ × ℤ × ℤ × ℤ) : CanvasSpec :=
  let x1 := bbox.1
  let y1 := bbox.2.1
  let x2 := bbox.2.2.1
  let y2 := bbox.2.2.2
  let thr : ℤ := 2
  let left := max (x1 - thr) 0
  let top := max (y1 - thr) 0
  let right := min (x2 + thr) width
  let bottom := min (y2 + thr) height
  let croppedW := right - left
  let croppedH := bottom - top
  let bg_w := croppedW * 3
  let bg_h := croppedH * 3
  { left := left, top := top, right := right, bottom := bottom
    bg_w := bg_w, bg_h := bg_h
    paste_x := Int.fdiv (bg_w - croppedW) 2
    paste_y := Int.fdiv (bg_h - croppedH) 2 }

/-- The recognition backend (`recognition_predictor` with the detection
predictor, `math_mode=True`, `task_names=['ocr_with_boxes']`), an external
collaborator: given the enhanced canvas it returns a per-image prediction
list or raises.  The canvas is identified by its geometry; its pixel
content is opaque. -/
def OCRBackend : Type := CanvasSpec → Except String (List OCRPrediction)

/-- Python `str.strip()`: remove leading and trailing whitespace.
(Lean's own `String.trim` is defined by well-founded recursion on byte
positions, so the equivalent is spelled out on the character list.) -/
def pyStrip (s : String) : String :=
  ⟨List.reverse (List.dropWhile Char.isWhitespace (List.reverse
    (List.dropWhile Char.isWhitespace s.data)))⟩

/-- `ocr_enhancer.py` lines 72-80: the confidence-filtered merge of the
recognition output.  `predictions[0].text_lines` is scanned only when the
prediction list is truthy (non-empty); lines with `confidence > 0.5` are
kept, joined with `' '.join` and stripped, and an empty merge falls back to
`old_text`. -/
def mergeLines (predictions : List OCRPrediction) (old_text : String) : String :=
  let lines : List String :=
    match predictions with
    | [] => []
    | p :: _ => (p.text_lines.filter (fun l => (5/10 : ℚ) < l.confidence)).map
        (fun l => l.text)
  let enhanced_text := pyStrip (String.intercalate " " lines)
  if enhanced_text = "" then old_text else enhanced_text

/-- `ocr_enhancer.py` lines 35-84: `OCREnhancer.extract_text_from_region`.
`models_loaded` is the instance flag `self._models_loaded`.  PIL's
`Image.crop` raises `ValueError` when the box has `right < left` or
`bottom < top` (as a fully-outside region produces after clamping); the
surrounding `try` converts that, and every other raised error, into
returning `old_text`. -/
def extract_text_from_region (models_loaded : Bool) (recognize : OCRBackend)
    (width height : ℤ) (bbox : ℤ × ℤ × ℤ × ℤ) (old_text : String) : String :=
  if models_loaded = false then old_text
  else
    let g := cropGeometry width height bbox
    if g.right < g.left ∨ g.bottom < g.top then old_text
    else
      match recognize g with
      | .error _ => old_text
      | .ok predictions => mergeLines predictions old_text

/-- A table-cell bounding box in native (PDF) coordinates; the coordinate
values are Python floats, modelled as `ℚ`. -/
structure CellBBox where
  l : ℚ
  t : ℚ
  r : ℚ
  b : ℚ
deriving DecidableEq, Repr

/-- A cell of `table_item.data.table_cells`: the fields
`enhance_table_structure` reads (`start_row_offset_idx`,
`start_col_offset_idx`) plus the mutable bbox and the cell text. -/
structure TableCell where
  start_row_offset_idx : ℕ
  start_col_offset_idx : ℕ
  text : String
  bbox : CellBBox
deriving DecidableEq, Repr

/-- A cell of the Surya table-recognition output: `row_id`, `col_id` and a
model-space bbox. -/
structure SuryaCell where
  row_id : ℕ
  col_id : ℕ
  bbox : CellBBox
deriving DecidableEq, Repr

/-- A per-image output object of the table-recognition backend,
exposing `cells`. -/
structure SuryaTable where
  cells : List SuryaCell
deriving DecidableEq, Repr

/-- The table-recognition backend (`table_rec_predictor([table_image])`),
an external collaborator returning the per-image outputs or raising. -/
def TableRecBackend : Type := PILImage → Except String (List SuryaTable)

/-- Modelled from the spec: `BoundingBoxConverter.update_cell_bbox` lives in
`docling_serve/document_enhancement/bbox_utils.py`, which is not among the
provided sources.  Per spec section 4.2 it is a pure geometric transform
that recomputes the cell's bbox from model space into native page space
from the cell, the Surya cell, the table bbox in native coordinates, the
crop's pixel dimensions and the native page width/height; it may fail
(the caller wraps it in `try`).  It is therefore modelled as an arbitrary
function of that signature returning the new bbox or an error. -/
def CellBBoxUpdater : Type :=
  TableCell → SuryaCell → (ℤ × ℤ × ℤ × ℤ) → (ℤ × ℤ) → ℚ → ℚ → Except String CellBBox

/-- `surya_cell_dict = {(cell.row_id, cell.col_id): cell for cell in cells}`:
a Python dict comprehension keeps the LAST cell for a duplicated key, hence
the lookup scans the reversed list. -/
def suryaCellLookup (cells : List SuryaCell) (row col : ℕ) : Option SuryaCell :=
  cells.reverse.find? (fun sc => sc.row_id = row ∧ sc.col_id = col)

/-- The `for cell in table_item.data.table_cells` loop of
`enhance_table_structure` (`ocr_enhancer.py` lines 106-114), with the
enclosing `except` arm: cells are mutated one at a time; the first raising
conversion stops the loop, leaving the failing cell and all later cells
untouched, and the caught error message (which the source logs) is returned
alongside the cell list. -/
def enhanceLoop (upd : CellBBoxUpdater) (lookup : ℕ → ℕ → Option SuryaCell)
    (table_bbox : ℤ × ℤ × ℤ × ℤ) (page_dim : ℤ × ℤ) (pdf_w pdf_h : ℚ) :
    List TableCell → List TableCell × Option String
  | [] => ([], none)
  | cell :: rest =>
    match lookup cell.start_row_offset_idx cell.start_col_offset_idx with
    | none =>
      let out := enhanceLoop upd lookup table_bbox page_dim pdf_w pdf_h rest
      (cell :: out.1, out.2)
    | some surya_cell =>
      match upd cell surya_cell table_bbox page_dim pdf_w pdf_h with
      | .ok newBBox =>
        let out := enhanceLoop upd lookup table_bbox page_dim pdf_w pdf_h rest
        ({ cell with bbox := newBBox } :: out.1, out.2)
      | .error e => (cell :: rest, some e)

/-- `ocr_enhancer.py` lines 86-117: `OCREnhancer.enhance_table_structure`.
It mutates `table_item`'s cells in place and returns `None`; the model
returns the cell list after the call together with the error message the
`except` arm caught and logged (`none` when no error was caught). -/
def enhance_table_structure (models_loaded : Bool) (backend : TableRecBackend)
    (upd : CellBBoxUpdater) (table_image : PILImage) (page_dim : ℤ × ℤ)
    (table_cells : List TableCell) (table_bbox : ℤ × ℤ × ℤ × ℤ)
    (pdf_w pdf_h : ℚ) : List TableCell × Option String :=
  if models_loaded = false then (table_cells, none)
  else
    match backend table_image with
    | .error e => (table_cells, some e)
    | .ok table_predictions =>
      match table_predictions with
      | [] => (table_cells, none)
      | surya_table :: _ =>
        enhanceLoop upd (suryaCellLookup surya_table.cells)
          table_bbox page_dim pdf_w pdf_h table_cells

/-- `convert.py` lines 34-61: the fields of `PictureDescriptionLocal` the
claims inspect (`generation_config`, a free-form dict, is omitted). -/
structure PictureDescriptionLocal where
  repo_id : String
  prompt : String := "Describe this image in a few sentences."
deriving DecidableEq, Repr

/-- `convert.py` lines 64-114: the fields of `PictureDescriptionApi` the
claims inspect (`headers` and `params`, free-form dicts, are omitted). -/
structure PictureDescriptionApi where
  url : String
  timeout : ℚ := 20
  prompt : String := "Describe this image in a few sentences."
deriving DecidableEq, Repr

/-- `convert.py` lines 217-317: the fields of `ConvertDocumentsOptions`
involved in the claims; the many conversion-pipeline fields inherited from
the base class and unrelated to picture description are omitted. -/
structure ConvertDocumentsOptions where
  picture_description_local : Option PictureDescriptionLocal := none
  picture_description_api : Option PictureDescriptionApi := none
  picture_annotation_opts : Option PictureAnnotationOptions := none
deriving DecidableEq, Repr

/-- `convert.py` lines 306-317: the pydantic `model_validator(mode="after")`
`picture_description_exclusivity`, run when a `ConvertDocumentsOptions`
object (hence any conversion request) is constructed. -/
def picture_description_exclusivity (o : ConvertDocumentsOptions) :
    Except String ConvertDocumentsOptions :=
  if o.picture_description_local ≠ none ∧ o.picture_description_api ≠ none then
    .error "The parameters picture_description_local and picture_description_api are mutually exclusive, only one of them can be set."
  else
    .ok o

lemma annotate_dispatch_ok_error_none {enc : ImageEncoder} {backend : ChatBackend}
    {o : PictureAnnotationOptions} {image : PILImage} {r : AnnotationResult}
    (h : annotate_dispatch enc backend o image = .ok r) : r.error = none := by
  unfold annotate_dispatch annotate_with_local_model annotate_with_runpod
    annotate_with_openai at h
  repeat' split at h
  all_goals first
    | exact Except.noConfusion h
    | (injection h with h'; subst h'; rfl)

/-- C1: for every image and configured backend, `annotate_image` returns an
`AnnotationResult` (it is a total function, so the dispatcher never raises);
whenever the returned result has its `error` field set, its `text` is the
empty string and its `provenance` equals the backend kind's string value —
every dispatch failure (encoding, network, response parsing) is converted
into such a result by the `except` arm. -/
theorem annotate_image_error_implies_empty_text
    (enc : ImageEncoder) (backend : ChatBackend)
    (o : PictureAnnotationOptions) (image : PILImage) (e : String)
    (h : (annotate_image enc backend o image).error = some e) :
    (annotate_image enc backend o image).text = "" ∧
    (annotate_image enc backend o image).provenance = o.model_type.value := by
  unfold annotate_image at h ⊢
  cases hd : annotate_dispatch enc backend o image with
  | ok r =>
    rw [hd] at h
    have h' : r.error = some e := h
    rw [annotate_dispatch_ok_error_none hd] at h'
    exact Option.noConfusion h'
  | error e' =>
    exact ⟨rfl, rfl⟩

/-- C1 witness: with a failing chat backend, the OpenAI-kind dispatch yields
empty text and provenance "openai". -/
theorem annotate_image_error_implies_empty_text_witness :
    (annotate_image (fun _ => .ok "IMG") (fun _ => .error "boom")
        { model_type := .OPENAI, openai_config := some { api_key := "k" } } ⟨0⟩).text = "" ∧
    (annotate_image (fun _ => .ok "IMG") (fun _ => .error "boom")
        { model_type := .OPENAI, openai_config := some { api_key := "k" } } ⟨0⟩).provenance
      = "openai" :=
  annotate_image_error_implies_empty_text _ _ _ _ "boom" rfl

/-- C2: when the models are loaded, the crop is valid and recognition
succeeds, `extract_text_from_region` keeps exactly the recognized lines with
confidence strictly greater than 0.5, joins their texts with a single space
and strips the result (falling back to `old_text` when that join is empty);
in particular a line set where every confidence is ≤ 0.5 yields `old_text`
unchanged, and the line set [("Hello", 0.9), ("xx", 0.3)] yields "Hello". -/
theorem extract_text_confidence_filter
    (recognize : OCRBackend) (width height : ℤ) (bbox : ℤ × ℤ × ℤ × ℤ)
    (old_text : String) (p : OCRPrediction) (ps : List OCRPrediction)
    (hg : ¬((cropGeometry width height bbox).right < (cropGeometry width height bbox).left ∨
            (cropGeometry width height bbox).bottom < (cropGeometry width height bbox).top))
    (hrec : recognize (cropGeometry width height bbox) = .ok (p :: ps)) :
    (extract_text_from_region true recognize width height bbox old_text =
      if pyStrip (String.intercalate " "
          ((p.text_lines.filter (fun l => (5/10 : ℚ) < l.confidence)).map
            (fun l => l.text))) = "" then old_text
      else pyStrip (String.intercalate " "
          ((p.text_lines.filter (fun l => (5/10 : ℚ) < l.confidence)).map
            (fun l => l.text)))) ∧
    ((∀ l ∈ p.text_lines, l.confidence ≤ 5/10) →
      extract_text_from_region true recognize width height bbox old_text = old_text) ∧
    (p.text_lines = [⟨"Hello", 9/10⟩, ⟨"xx", 3/10⟩] →
      extract_text_from_region true recognize width height bbox old_text = "Hello") := by
  have hext : extract_text_from_region true recognize width height bbox old_text
      = mergeLines (p :: ps) old_text := by
    simp only [extract_text_from_region, hrec, if_neg hg]
    rfl
  refine ⟨?_, ?_, ?_⟩
  · rw [hext]; rfl
  · intro hle
    have hfil : p.text_lines.filter (fun l => (5/10 : ℚ) < l.confidence) = [] := by
      rw [List.filter_eq_nil_iff]
      intro a ha
      simpa using not_lt.mpr (hle a ha)
    rw [hext]
    simp only [mergeLines, hfil]
    rfl
  · intro h3
    rw [hext]
    obtain ⟨tl⟩ := p
    have h3' : tl = [⟨"Hello", 9/10⟩, ⟨"xx", 3/10⟩] := h3
    subst h3'
    have hfil : ([⟨"Hello", 9/10⟩, ⟨"xx", 3/10⟩] : List RecognizedLine).filter
        (fun l => (5/10 : ℚ) < l.confidence) = [⟨"Hello", 9/10⟩] := by
      norm_num [List.filter_cons, List.filter_nil]
    simp only [mergeLines, hfil]
    rw [if_neg (by decide)]
    decide

/-- C2 witness: region (10,10,50,40) in a 100 by 100 image with recognized
lines ("Hello", 0.9) and ("xx", 0.3) produces "Hello". -/
theorem extract_text_confidence_filter_witness :
    extract_text_from_region true
      (fun _ => .ok [⟨[⟨"Hello", 9/10⟩, ⟨"xx", 3/10⟩]⟩])
      100 100 (10, 10, 50, 40) "old" = "Hello" :=
  (extract_text_confidence_filter _ 100 100 (10, 10, 50, 40) "old"
    ⟨[⟨"Hello", 9/10⟩, ⟨"xx", 3/10⟩]⟩ [] (by decide) rfl).2.2 rfl

lemma mergeLines_eq_empty {predictions : List OCRPrediction} {old_text : String}
    (h : mergeLines predictions old_text = "") : old_text = "" := by
  simp only [mergeLines] at h
  split at h
  · exact h
  · next hne => exact absurd h hne

/-- C3: `extract_text_from_region` is total (never raises to its caller) and
degrades to returning `old_text` unchanged when the models are not loaded,
when the padded and clamped region is empty or inverted (as a region fully
outside the image bounds produces — PIL `crop` raises and the `except` arm
catches), and when the recognition backend raises; moreover the result is
the empty string only when `old_text` itself is empty. -/
theorem extract_text_degrades_to_old_text
    (models_loaded : Bool) (recognize : OCRBackend) (width height : ℤ)
    (bbox : ℤ × ℤ × ℤ × ℤ) (old_text : String) :
    (models_loaded = false →
      extract_text_from_region models_loaded recognize width height bbox old_text = old_text) ∧
    ((cropGeometry width height bbox).right < (cropGeometry width height bbox).left ∨
        (cropGeometry width height bbox).bottom < (cropGeometry width height bbox).top →
      extract_text_from_region models_loaded recognize width height bbox old_text = old_text) ∧
    (∀ e, recognize (cropGeometry width height bbox) = .error e →
      extract_text_from_region models_loaded recognize width height bbox old_text = old_text) ∧
    (extract_text_from_region models_loaded recognize width height bbox old_text = "" →
      old_text = "") := by
  refine ⟨?_, ?_, ?_, ?_⟩
  · intro h; subst h; rfl
  · intro hgeo
    cases models_loaded
    · rfl
    · simp only [extract_text_from_region, if_pos hgeo]
      rfl
  · intro e he
    cases models_loaded
    · rfl
    · simp only [extract_text_from_region, he]
      repeat' split
      all_goals rfl
  · intro hres
    simp only [extract_text_from_region] at hres
    split at hres
    · exact hres
    · split at hres
      · exact hres
      · split at hres
        · exact hres
        · exact mergeLines_eq_empty hres

/-- C3 witness: a raising backend and a region fully outside a 5 by 5 image
both return the original text unchanged. -/
theorem extract_text_degrades_to_old_text_witness :
    extract_text_from_region true (fun _ => .error "model crash")
      100 100 (10, 10, 50, 40) "keep" = "keep" ∧
    extract_text_from_region true (fun _ => .ok [⟨[⟨"Hi", 9/10⟩]⟩])
      5 5 (200, 200, 300, 300) "keep" = "keep" :=
  ⟨(extract_text_degrades_to_old_text true _ 100 100 (10, 10, 50, 40) "keep").2.2.1
      "model crash" rfl,
   (extract_text_degrades_to_old_text true _ 5 5 (200, 200, 300, 300) "keep").2.1
      (by decide)⟩

/-- C4: constructing the annotation service with kind RunPod and no RunPod
config attempts to build one from RUNPOD_API_KEY, RUNPOD_WORKER and the
optional RUNPOD_MODEL (default "Qwen/Qwen2.5-VL-3B-Instruct") and fails
with the ValueError naming the missing environment variables whenever a
required one is absent; symmetrically for kind OpenAI with OPENAI_API_KEY.
The validator's type takes no backend handle, so its backend call count is
zero by construction. -/
theorem validate_configuration_env_resolution
    (env : Env) (rc : Option RunPodAnnotationConfig) (oc : Option OpenAIAnnotationConfig) :
    (env.runpod_api_key = none ∨ env.runpod_worker = none →
      mkPictureAnnotationService env
        (some { model_type := .RUNPOD, runpod_config := none, openai_config := oc }) =
        .error runpodMissingMsg) ∧
    (pyStrFalsy env.runpod_api_key = false → pyStrFalsy env.runpod_worker = false →
      mkPictureAnnotationService env
        (some { model_type := .RUNPOD, runpod_config := none, openai_config := oc }) =
        .ok { model_type := .RUNPOD,
              runpod_config := some
                { api_key := env.runpod_api_key.getD "",
                  worker_id := env.runpod_worker.getD "",
                  model := env.runpod_model.getD "Qwen/Qwen2.5-VL-3B-Instruct" },
              openai_config := oc }) ∧
    (env.openai_api_key = none →
      mkPictureAnnotationService env
        (some { model_type := .OPENAI, runpod_config := rc, openai_config := none }) =
        .error openaiMissingMsg) := by
  refine ⟨?_, ?_, ?_⟩
  · intro h
    unfold mkPictureAnnotationService validate_configuration
    cases h with
    | inl h => simp [h, pyStrFalsy]
    | inr h => simp [h, pyStrFalsy]
  · intro hA hB
    unfold mkPictureAnnotationService validate_configuration
    simp [hA, hB]
  · intro h
    unfold mkPictureAnnotationService validate_configuration
    simp [h, pyStrFalsy]

/-- C4 witness: with an empty environment both the RunPod-kind and the
OpenAI-kind service construction fail with the respective message. -/
theorem validate_configuration_env_resolution_witness :
    mkPictureAnnotationService {} (some { model_type := .RUNPOD }) = .error runpodMissingMsg ∧
    mkPictureAnnotationService {} (some { model_type := .OPENAI }) = .error openaiMissingMsg :=
  ⟨(validate_configuration_env_resolution {} none none).1 (Or.inl rfl),
   (validate_configuration_env_resolution {} none none).2.2 rfl⟩

/-- C5 counterexample: an options object with kind RunPod carrying BOTH a
non-null runpod config and a non-null openai config passes the pydantic
validator and the service validator unchanged, and `annotate_image`
dispatches on it (the chat backend is invoked), refuting the claim that no
options object carrying two non-null provider configs may reach dispatch. -/
theorem two_configs_reach_dispatch_cex :
    validate_model_config
        { model_type := .RUNPOD,
          runpod_config := some { api_key := "rk", worker_id := "w1" },
          openai_config := some { api_key := "ok1" } } =
      .ok { model_type := .RUNPOD,
            runpod_config := some { api_key := "rk", worker_id := "w1" },
            openai_config := some { api_key := "ok1" } } ∧
    validate_configuration {}
        { model_type := .RUNPOD,
          runpod_config := some { api_key := "rk", worker_id := "w1" },
          openai_config := some { api_key := "ok1" } } =
      .ok { model_type := .RUNPOD,
            runpod_config := some { api_key := "rk", worker_id := "w1" },
            openai_config := some { api_key := "ok1" } } ∧
    annotate_image (fun _ => .ok "IMG") (fun _ => .error "net down")
        { model_type := .RUNPOD,
          runpod_config := some { api_key := "rk", worker_id := "w1" },
          openai_config := some { api_key := "ok1" } } ⟨0⟩ =
      { text := "", provenance := "runpod", confidence := none, error := some "net down" } :=
  ⟨rfl, rfl, rfl⟩

/-- C5 amended: validation guarantees that the provider config required by
the selected kind is non-null, and a request setting both
picture_description_local and picture_description_api is rejected at
construction time regardless of kind; validation does not, however, reject
an options object that additionally carries the other backend's config. -/
theorem picture_options_exclusivity_amended
    (o o' : PictureAnnotationOptions) (c : ConvertDocumentsOptions) :
    (validate_model_config o = .ok o' →
      o' = o ∧
      (o.model_type = .RUNPOD → o.runpod_config ≠ none) ∧
      (o.model_type = .OPENAI → o.openai_config ≠ none)) ∧
    (c.picture_description_local ≠ none → c.picture_description_api ≠ none →
      picture_description_exclusivity c =
        .error "The parameters picture_description_local and picture_description_api are mutually exclusive, only one of them can be set.") := by
  constructor
  · intro h
    unfold validate_model_config at h
    split at h
    next hc1 => exact Except.noConfusion h
    next hc1 =>
      split at h
      next hc2 => exact Except.noConfusion h
      next hc2 =>
        injection h with h'
        refine ⟨h'.symm, ?_, ?_⟩
        · intro hR hnone
          exact hc1 ⟨hR, hnone⟩
        · intro hO hnone
          exact hc2 ⟨hO, hnone⟩
  · intro h1 h2
    unfold picture_description_exclusivity
    rw [if_pos ⟨h1, h2⟩]

/-- C5 witness: a validated RunPod-kind options object has a non-null
runpod config, and a request with both description variants set fails with
the mutual-exclusivity error. -/
theorem picture_options_exclusivity_amended_witness :
    ({ model_type := .RUNPOD, runpod_config := some { api_key := "rk", worker_id := "w1" },
        openai_config := none } : PictureAnnotationOptions).runpod_config ≠ none ∧
    picture_description_exclusivity
        { picture_description_local := some { repo_id := "r" },
          picture_description_api := some { url := "u" } } =
      .error "The parameters picture_description_local and picture_description_api are mutually exclusive, only one of them can be set." :=
  ⟨((picture_options_exclusivity_amended
      { model_type := .RUNPOD, runpod_config := some { api_key := "rk", worker_id := "w1" },
        openai_config := none }
      { model_type := .RUNPOD, runpod_config := some { api_key := "rk", worker_id := "w1" },
        openai_config := none } {}).1 rfl).2.1 rfl,
   (picture_options_exclusivity_amended {} {} _).2
      (Option.some_ne_none _) (Option.some_ne_none _)⟩

lemma forall2_cell_rel_self (lookup : ℕ → ℕ → Option SuryaCell) (cells : List TableCell) :
    List.Forall₂ (fun old new =>
      new.start_row_offset_idx = old.start_row_offset_idx ∧
      new.start_col_offset_idx = old.start_col_offset_idx ∧
      new.text = old.text ∧
      (lookup old.start_row_offset_idx old.start_col_offset_idx = none → new = old))
      cells cells := by
  induction cells with
  | nil => exact List.Forall₂.nil
  | cons c cs ih => exact List.Forall₂.cons ⟨rfl, rfl, rfl, fun _ => rfl⟩ ih

lemma enhanceLoop_frame (upd : CellBBoxUpdater) (lookup : ℕ → ℕ → Option SuryaCell)
    (tb : ℤ × ℤ × ℤ × ℤ) (pd : ℤ × ℤ) (pw ph : ℚ) (cells : List TableCell) :
    List.Forall₂ (fun old new =>
      new.start_row_offset_idx = old.start_row_offset_idx ∧
      new.start_col_offset_idx = old.start_col_offset_idx ∧
      new.text = old.text ∧
      (lookup old.start_row_offset_idx old.start_col_offset_idx = none → new = old))
      cells (enhanceLoop upd lookup tb pd pw ph cells).1 := by
  induction cells with
  | nil => exact List.Forall₂.nil
  | cons c cs ih =>
    simp only [enhanceLoop]
    cases hlk : lookup c.start_row_offset_idx c.start_col_offset_idx with
    | none =>
      simp only [hlk]
      exact List.Forall₂.cons ⟨rfl, rfl, rfl, fun _ => rfl⟩ ih
    | some sc =>
      simp only [hlk]
      cases hupd : upd c sc tb pd pw ph with
      | ok b =>
        simp only [hupd]
        exact List.Forall₂.cons
          ⟨rfl, rfl, rfl, fun hn => Option.noConfusion (hlk.symm.trans hn)⟩ ih
      | error e =>
        simp only [hupd]
        exact forall2_cell_rel_self lookup (c :: cs)

/-- C7: after `enhance_table_structure` returns, the cell list has the same
length, every cell keeps its row offset, column offset and text, and every
cell whose (start_row_offset_idx, start_col_offset_idx) has no matching
(row_id, col_id) in the model output is identical to its pre-call state;
only matched cells can have their bbox rewritten. -/
theorem enhance_frame_property
    (models_loaded : Bool) (backend : TableRecBackend) (upd : CellBBoxUpdater)
    (table_image : PILImage) (page_dim : ℤ × ℤ) (table_cells : List TableCell)
    (table_bbox : ℤ × ℤ × ℤ × ℤ) (pdf_w pdf_h : ℚ) (st : SuryaTable) (ps : List SuryaTable)
    (hb : backend table_image = .ok (st :: ps)) :
    List.Forall₂ (fun old new =>
      new.start_row_offset_idx = old.start_row_offset_idx ∧
      new.start_col_offset_idx = old.start_col_offset_idx ∧
      new.text = old.text ∧
      (suryaCellLookup st.cells old.start_row_offset_idx old.start_col_offset_idx = none →
        new = old))
      table_cells
      (enhance_table_structure models_loaded backend upd table_image page_dim
        table_cells table_bbox pdf_w pdf_h).1 := by
  cases models_loaded
  · exact forall2_cell_rel_self _ _
  · simp only [enhance_table_structure, hb]
    exact enhanceLoop_frame upd (suryaCellLookup st.cells) table_bbox page_dim pdf_w pdf_h
      table_cells

/-- C7 witness: a cell at (0,0) with no matching Surya cell (the model
output only has (0,1)) is returned unchanged. -/
theorem enhance_frame_property_witness :
    List.Forall₂ (fun old new =>
      new.start_row_offset_idx = old.start_row_offset_idx ∧
      new.start_col_offset_idx = old.start_col_offset_idx ∧
      new.text = old.text ∧
      (suryaCellLookup (SuryaTable.mk [⟨0, 1, ⟨0, 0, 1, 1⟩⟩]).cells
          old.start_row_offset_idx old.start_col_offset_idx = none → new = old))
      [⟨0, 0, "t", ⟨2, 2, 3, 3⟩⟩]
      (enhance_table_structure true (fun _ => .ok [⟨[⟨0, 1, ⟨0, 0, 1, 1⟩⟩]⟩])
        (fun _ _ _ _ _ _ => .error "never") ⟨0⟩ (0, 0)
        [⟨0, 0, "t", ⟨2, 2, 3, 3⟩⟩] (0, 0, 0, 0) 1 1).1 :=
  enhance_frame_property true _ _ ⟨0⟩ (0, 0) _ (0, 0, 0, 0) 1 1 _ [] rfl

lemma enhanceLoop_append_error (upd : CellBBoxUpdater) (lookup : ℕ → ℕ → Option SuryaCell)
    (tb : ℤ × ℤ × ℤ × ℤ) (pd : ℤ × ℤ) (pw ph : ℚ)
    (pre post : List TableCell) (cell : TableCell) (sc : SuryaCell) (e : String)
    (hpre : (enhanceLoop upd lookup tb pd pw ph pre).2 = none)
    (hlk : lookup cell.start_row_offset_idx cell.start_col_offset_idx = some sc)
    (hupd : upd cell sc tb pd pw ph = .error e) :
    enhanceLoop upd lookup tb pd pw ph (pre ++ cell :: post) =
      ((enhanceLoop upd lookup tb pd pw ph pre).1 ++ cell :: post, some e) := by
  induction pre with
  | nil =>
    simp only [List.nil_append, enhanceLoop, hlk, hupd]
  | cons c cs ih =>
    simp only [List.cons_append, enhanceLoop] at hpre ⊢
    cases hlk2 : lookup c.start_row_offset_idx c.start_col_offset_idx with
    | none =>
      simp only [hlk2, List.append_eq] at hpre ⊢
      rw [ih hpre]
      simp [List.cons_append]
    | some sc2 =>
      simp only [hlk2, List.append_eq] at hpre ⊢
      cases hupd2 : upd c sc2 tb pd pw ph with
      | ok b =>
        simp only [hupd2, List.append_eq] at hpre ⊢
        rw [ih hpre]
        simp [List.cons_append]
      | error e2 =>
        simp only [hupd2] at hpre
        exact Option.noConfusion hpre

/-- C6 amended: any error during `enhance_table_structure` is caught (the
function is total, returning the caught message instead of raising).  An
error during the table-structure backend call, or an empty prediction list,
leaves every cell unchanged; but an error during a bounding-box conversion
mid-loop leaves the cells already processed with their updated bboxes and
only the failing cell and the remaining cells unchanged — the operation is
not atomic. -/
theorem enhance_error_semantics_amended
    (backend : TableRecBackend) (upd : CellBBoxUpdater)
    (table_image : PILImage) (page_dim : ℤ × ℤ) (table_cells : List TableCell)
    (table_bbox : ℤ × ℤ × ℤ × ℤ) (pdf_w pdf_h : ℚ) :
    (∀ e, backend table_image = .error e →
      enhance_table_structure true backend upd table_image page_dim table_cells
        table_bbox pdf_w pdf_h = (table_cells, some e)) ∧
    (backend table_image = .ok [] →
      enhance_table_structure true backend upd table_image page_dim table_cells
        table_bbox pdf_w pdf_h = (table_cells, none)) ∧
    (∀ st ps pre cell post sc e,
      backend table_image = .ok (st :: ps) →
      table_cells = pre ++ cell :: post →
      (enhanceLoop upd (suryaCellLookup st.cells) table_bbox page_dim pdf_w pdf_h pre).2
        = none →
      suryaCellLookup st.cells cell.start_row_offset_idx cell.start_col_offset_idx
        = some sc →
      upd cell sc table_bbox page_dim pdf_w pdf_h = .error e →
      enhance_table_structure true backend upd table_image page_dim table_cells
          table_bbox pdf_w pdf_h =
        ((enhanceLoop upd (suryaCellLookup st.cells) table_bbox page_dim pdf_w pdf_h
            pre).1 ++ cell :: post, some e)) := by
  refine ⟨?_, ?_, ?_⟩
  · intro e he
    simp only [enhance_table_structure, he]
    rfl
  · intro he
    simp only [enhance_table_structure, he]
    rfl
  · intro st ps pre cell post sc e hb hcells hpre hlk hupd
    subst hcells
    simp only [enhance_table_structure, hb]
    have h := enhanceLoop_append_error upd (suryaCellLookup st.cells)
      table_bbox page_dim pdf_w pdf_h pre post cell sc e hpre hlk hupd
    simpa using h

/-- C6 witness: a conversion that fails on the second cell stops the loop
there, returning the processed prefix followed by the untouched suffix and
the caught message. -/
theorem enhance_error_semantics_amended_witness :
    enhance_table_structure true
        (fun _ => .ok [⟨[⟨0, 0, ⟨5, 5, 6, 6⟩⟩, ⟨0, 1, ⟨7, 7, 8, 8⟩⟩]⟩])
        (fun cell sc _ _ _ _ =>
          if cell.start_col_offset_idx = 0 then .ok sc.bbox else .error "convert fail")
        ⟨0⟩ (0, 0)
        [⟨0, 0, "a", ⟨0, 0, 1, 1⟩⟩, ⟨0, 1, "b", ⟨1, 0, 2, 1⟩⟩]
        (0, 0, 0, 0) 1 1 =
      ((enhanceLoop
          (fun cell sc _ _ _ _ =>
            if cell.start_col_offset_idx = 0 then .ok sc.bbox else .error "convert fail")
          (suryaCellLookup [⟨0, 0, ⟨5, 5, 6, 6⟩⟩, ⟨0, 1, ⟨7, 7, 8, 8⟩⟩])
          (0, 0, 0, 0) (0, 0) 1 1 [⟨0, 0, "a", ⟨0, 0, 1, 1⟩⟩]).1
        ++ [⟨0, 1, "b", ⟨1, 0, 2, 1⟩⟩], some "convert fail") :=
  (enhance_error_semantics_amended _ _ ⟨0⟩ (0, 0) _ (0, 0, 0, 0) 1 1).2.2
    ⟨[⟨0, 0, ⟨5, 5, 6, 6⟩⟩, ⟨0, 1, ⟨7, 7, 8, 8⟩⟩]⟩ []
    [⟨0, 0, "a", ⟨0, 0, 1, 1⟩⟩] ⟨0, 1, "b", ⟨1, 0, 2, 1⟩⟩ []
    ⟨0, 1, ⟨7, 7, 8, 8⟩⟩ "convert fail" rfl rfl rfl rfl rfl

/-- C6 counterexample: with a converter that succeeds on the first cell and
fails on the second, `enhance_table_structure` catches the error (returning
it instead of raising) but the first cell's bbox is left REWRITTEN, so the
cells are not all in their pre-enhancement state — refuting atomicity. -/
theorem enhance_partial_update_cex :
    enhance_table_structure true
        (fun _ => .ok [⟨[⟨0, 0, ⟨5, 5, 6, 6⟩⟩, ⟨0, 1, ⟨7, 7, 8, 8⟩⟩]⟩])
        (fun cell sc _ _ _ _ =>
          if cell.start_col_offset_idx = 0 then .ok sc.bbox else .error "convert fail")
        ⟨0⟩ (0, 0)
        [⟨0, 0, "a", ⟨0, 0, 1, 1⟩⟩, ⟨0, 1, "b", ⟨1, 0, 2, 1⟩⟩]
        (0, 0, 0, 0) 1 1 =
      ([⟨0, 0, "a", ⟨5, 5, 6, 6⟩⟩, ⟨0, 1, "b", ⟨1, 0, 2, 1⟩⟩], some "convert fail") ∧
    ([⟨0, 0, "a", ⟨5, 5, 6, 6⟩⟩, ⟨0, 1, "b", ⟨1, 0, 2, 1⟩⟩] : List TableCell) ≠
      [⟨0, 0, "a", ⟨0, 0, 1, 1⟩⟩, ⟨0, 1, "b", ⟨1, 0, 2, 1⟩⟩] :=
  ⟨rfl, by decide⟩

/-- C8: the crop and canvas geometry of `extract_text_from_region` is the
deterministic closed form left = max(x1-2,0), top = max(y1-2,0),
right = min(x2+2,width), bottom = min(y2+2,height), bg_w = 3 x cropped
width, bg_h = 3 x cropped height, paste position
((bg_w - cropped_width)//2, (bg_h - cropped_height)//2) — which centres the
crop at exactly (cropped_width, cropped_height).  Being a pure function of
image dimensions and region, identical input reproduces identical crop and
canvas dimensions. -/
theorem crop_geometry_formulas (width height x1 y1 x2 y2 : ℤ) :
    cropGeometry width height (x1, y1, x2, y2) =
      { left := max (x1 - 2) 0
        top := max (y1 - 2) 0
        right := min (x2 + 2) width
        bottom := min (y2 + 2) height
        bg_w := 3 * (min (x2 + 2) width - max (x1 - 2) 0)
        bg_h := 3 * (min (y2 + 2) height - max (y1 - 2) 0)
        paste_x := Int.fdiv (3 * (min (x2 + 2) width - max (x1 - 2) 0)
            - (min (x2 + 2) width - max (x1 - 2) 0)) 2
        paste_y := Int.fdiv (3 * (min (y2 + 2) height - max (y1 - 2) 0)
            - (min (y2 + 2) height - max (y1 - 2) 0)) 2 } ∧
    (cropGeometry width height (x1, y1, x2, y2)).paste_x =
      min (x2 + 2) width - max (x1 - 2) 0 ∧
    (cropGeometry width height (x1, y1, x2, y2)).paste_y =
      min (y2 + 2) height - max (y1 - 2) 0 := by
  have hdiv : ∀ w : ℤ, Int.fdiv (w * 3 - w) 2 = w := by
    intro w
    have hw : w * 3 - w = 2 * w := by ring
    rw [hw, Int.mul_fdiv_cancel_left w (by decide)]
  refine ⟨?_, ?_, ?_⟩
  · simp only [cropGeometry, CanvasSpec.mk.injEq]
    refine ⟨trivial, trivial, trivial, trivial, by ring, by ring, ?_, ?_⟩
    · congr 1
      ring
    · congr 1
      ring
  · simpa only [cropGeometry] using hdiv (min (x2 + 2) width - max (x1 - 2) 0)
  · simpa only [cropGeometry] using hdiv (min (y2 + 2) height - max (y1 - 2) 0)

/-- C9: on a successful backend call the dispatcher returns the first
response choice's text with provenance "openai:<model>" and no error; the
RunPod request's base URL is https://api.runpod.ai/v2/<worker_id>/openai/v1
while the OpenAI request uses the client's default endpoint; and the image
detail hint is "low" for RunPod and "high" for OpenAI. -/
theorem annotate_success_and_request_policy
    (enc : ImageEncoder) (backend : ChatBackend) (image : PILImage)
    (rc : Option RunPodAnnotationConfig)
    (cfg : OpenAIAnnotationConfig) (rcfg : RunPodAnnotationConfig)
    (img_str : String) (choice : ChatChoice) (rest : List ChatChoice)
    (henc : enc image = .ok img_str)
    (hresp : backend (mkOpenaiRequest cfg img_str) = .ok ⟨choice :: rest⟩) :
    annotate_image enc backend
        { model_type := .OPENAI, runpod_config := rc, openai_config := some cfg } image =
      { text := choice.message.content.getD "",
        provenance := "openai:" ++ cfg.model,
        confidence := none, error := none } ∧
    (mkRunpodRequest rcfg img_str).base_url =
      some ("https://api.runpod.ai/v2/" ++ rcfg.worker_id ++ "/openai/v1") ∧
    (mkRunpodRequest rcfg img_str).detail = "low" ∧
    (mkOpenaiRequest cfg img_str).base_url = none ∧
    (mkOpenaiRequest cfg img_str).detail = "high" := by
  refine ⟨?_, rfl, rfl, rfl, rfl⟩
  simp only [annotate_image, annotate_dispatch, annotate_with_openai, henc, hresp]

/-- C9 witness: a mocked backend returning choice text "a red car" under
kind OpenAI yields exactly that text with provenance
"openai:gpt-4-vision-preview" and no error. -/
theorem annotate_success_and_request_policy_witness :
    annotate_image (fun _ => .ok "IMG")
        (fun _ => .ok ⟨[⟨⟨some "a red car"⟩⟩]⟩)
        { model_type := .OPENAI, runpod_config := none,
          openai_config := some { api_key := "k" } } ⟨0⟩ =
      { text := "a red car", provenance := "openai:gpt-4-vision-preview",
        confidence := none, error := none } :=
  ((annotate_success_and_request_policy (fun _ => .ok "IMG")
      (fun _ => .ok ⟨[⟨⟨some "a red car"⟩⟩]⟩) ⟨0⟩ none { api_key := "k" }
      { api_key := "rk", worker_id := "w1" } "IMG" ⟨⟨some "a red car"⟩⟩ [] rfl rfl).1).trans
    (by decide)

/-- C10: constructing the service with no options always succeeds (the
defaults select the Local backend, which needs no configuration or
environment), and `annotate_image` on the default service returns exactly
the local placeholder result with provenance "local_model" and no error. -/
theorem default_local_service (env : Env) (enc : ImageEncoder)
    (backend : ChatBackend) (image : PILImage) :
    validate_model_config {} = .ok {} ∧
    mkPictureAnnotationService env none = .ok {} ∧
    annotate_image enc backend {} image =
      { text := "Local model annotation placeholder", provenance := "local_model",
        confidence := none, error := none } :=
  ⟨rfl, rfl, rfl⟩
